import Mathlib

/-!
Verification of the drug-valuation engine: mechanism scoring, phase tables,
royalty ramp curve, discounted-cash-flow integrators, rNPV/ROI composition
and LOE-year resolution. Numeric values are embedded as exact rationals,
calendar years as integers.
-/

namespace Drugval

/-- Mechanistic drug properties: the eight numeric inputs read by the
mechanism scorer in src/pages/index.tsx. -/
structure MechProps where
  potency : ℚ
  selectivity : ℚ
  halfLife : ℚ
  molecularWeight : ℚ
  logP : ℚ
  bioavailability : ℚ
  targetValidation : ℚ
  targetNovelty : ℚ

/-- Potency rule of the mechanism scorer (index.tsx line 85). -/
def potencyDelta (x : ℚ) : ℚ :=
  if x < 10 then 0.10 else if x > 100 then -0.10 else 0

/-- Selectivity rule of the mechanism scorer (index.tsx line 86). -/
def selectivityDelta (x : ℚ) : ℚ :=
  if x > 30 then 0.10 else if x < 5 then -0.10 else 0

/-- Half-life rule of the mechanism scorer (index.tsx line 87); both branches
subtract. -/
def halfLifeDelta (x : ℚ) : ℚ :=
  if x > 24 then -0.05 else if x < 2 then -0.05 else 0

/-- Molecular-weight rule of the mechanism scorer (index.tsx line 88). -/
def molecularWeightDelta (x : ℚ) : ℚ :=
  if x > 500 then -0.05 else if x < 200 then 0.05 else 0

/-- LogP rule of the mechanism scorer (index.tsx line 89). -/
def logPDelta (x : ℚ) : ℚ :=
  if 1 ≤ x ∧ x ≤ 3 then 0.10 else -0.05

/-- Bioavailability rule of the mechanism scorer (index.tsx line 90). -/
def bioavailabilityDelta (x : ℚ) : ℚ :=
  if x > 0.5 then 0.10 else if x < 0.2 then -0.10 else 0

/-- Target-validation rule of the mechanism scorer (index.tsx line 91). -/
def targetValidationDelta (x : ℚ) : ℚ :=
  if x > 0.7 then 0.20 else if x < 0.3 then -0.10 else 0

/-- Target-novelty rule of the mechanism scorer (index.tsx line 92). -/
def targetNoveltyDelta (x : ℚ) : ℚ :=
  if x > 0.7 then -0.10 else if x < 0.3 then 0.10 else 0

/-- The pre-clamp mechanism score: the source starts at b = 1.0 and applies
the eight independent if/else-if adjustments in sequence, each adding one
delta to b, which is the sum below (index.tsx lines 84-92). -/
def mechanismBonusRaw (p : MechProps) : ℚ :=
  1 + potencyDelta p.potency + selectivityDelta p.selectivity
    + halfLifeDelta p.halfLife + molecularWeightDelta p.molecularWeight
    + logPDelta p.logP + bioavailabilityDelta p.bioavailability
    + targetValidationDelta p.targetValidation
    + targetNoveltyDelta p.targetNovelty

/-- The mechanism bonus, clamped into [0.5, 2.0]
(index.tsx line 93: Math.min(2.0, Math.max(0.5, b))). -/
def mechanismBonus (p : MechProps) : ℚ :=
  min 2 (max 0.5 (mechanismBonusRaw p))

/-- Phase → development cost table (index.tsx lines 65-72); unknown keys
resolve to 0 via the JS nullish fallback. -/
def devCosts (phase : String) : ℚ :=
  if phase = "Preclinical" then 200
  else if phase = "Phase I" then 50
  else if phase = "Phase II" then 100
  else if phase = "Phase III" then 200
  else if phase = "NDA" then 20
  else if phase = "Approved" then 0
  else 0

/-- Phase → baseline probability table (index.tsx lines 73-80); unknown keys
resolve to 0 via the JS nullish fallback. -/
def baseProbabilities (phase : String) : ℚ :=
  if phase = "Preclinical" then 0.12
  else if phase = "Phase I" then 0.32
  else if phase = "Phase II" then 0.14
  else if phase = "Phase III" then 0.40
  else if phase = "NDA" then 0.85
  else if phase = "Approved" then 1.0
  else 0

/-- Royalty percentage at a calendar year (src/unnamed/part_003,
royaltyAtYear): 0 outside [launch, loe), max once the year offset reaches
ramp, otherwise a linear interpolation from min to max. -/
def royaltyAtYear (y launch loe : ℤ) (rmin rmax ramp : ℚ) : ℚ :=
  if y < launch ∨ y ≥ loe then 0
  else if ((y - launch : ℤ) : ℚ) ≥ ramp then rmax
  else rmin + (rmax - rmin) * ((y - launch : ℤ) : ℚ) / ramp

/-- Sales at a calendar year (src/lib/cashflow, salesAtYear): 0 outside
[launch, loe), a linear ramp to peak over the fixed 4-year constant,
then peak. -/
def salesAtYear (year launch loe : ℤ) (peak : ℚ) : ℚ :=
  if year < launch ∨ year ≥ loe then 0
  else if year - launch ≤ 4 then peak * (((year - launch : ℤ) : ℚ) / 4)
  else peak

/-- The DCF input record (src/lib/cashflow, DcfInputs); the optional
royaltyPctAt callback is an optional function from year to percentage. -/
structure DcfInputs where
  currentYear : ℤ
  launchYear : ℤ
  loeYear : ℤ
  discountRate : ℚ
  taxRate : ℚ
  peakSales : ℚ
  cogs : ℚ
  commercialSpend : ℚ
  workingCapital : ℚ
  royaltyPctAt : Option (ℤ → ℚ)

/-- Owner present value (src/lib/cashflow, pvOwner): the loop over integer
years in [launchYear, loeYear) accumulating net after-tax cash flow
discounted by (1 + discountRate)^(y - currentYear). -/
def pvOwner (i : DcfInputs) : ℚ :=
  ∑ y in Finset.Ico i.launchYear i.loeYear,
    salesAtYear y i.launchYear i.loeYear i.peakSales
      * (1 - i.cogs - i.commercialSpend - i.workingCapital) * (1 - i.taxRate)
      / (1 + i.discountRate) ^ (y - i.currentYear)

/-- Licensor present value (src/lib/cashflow, pvLicensor): 0 when no
royalty callback is supplied, otherwise the loop over integer years in
[launchYear, loeYear) accumulating the after-tax royalty on top-line sales,
discounted by (1 + discountRate)^(y - currentYear). -/
def pvLicensor (i : DcfInputs) : ℚ :=
  match i.royaltyPctAt with
  | none => 0
  | some roy =>
      ∑ y in Finset.Ico i.launchYear i.loeYear,
        salesAtYear y i.launchYear i.loeYear i.peakSales
          * (roy y / 100) * (1 - i.taxRate)
          / (1 + i.discountRate) ^ (y - i.currentYear)

/-- Commercial role (index.tsx, type Role). -/
inductive Role where
  | OWNER : Role
  | LICENSOR : Role

/-- The engine inputs assembled by the page state (index.tsx): phase,
role, commercial, licensing and mechanistic fields. -/
structure Inputs where
  phase : String
  indication : String
  role : Role
  peakSales : ℚ
  launchYear : ℤ
  loeYear : ℤ
  discountRate : ℚ
  taxRate : ℚ
  cogs : ℚ
  commercialSpend : ℚ
  workingCapital : ℚ
  royaltyMin : ℚ
  royaltyMax : ℚ
  royaltyRampYears : ℚ
  mech : MechProps

/-- The derived outputs of one valuation (index.tsx lines 96-128). -/
structure Outputs where
  mechanismBonus : ℚ
  ptrs : ℚ
  devCostPV : ℚ
  ownerPV : ℚ
  licensorPV : ℚ
  rnpv : ℚ
  roi : ℤ

/-- The valuation composition (index.tsx lines 96-128): probability and
dev cost from the phase tables, the mechanism bonus, owner and licensor
PVs (the licensor call passes zero cost fractions and the royaltyAtYear
closure), the role-selected PV, ptrs, rnpv, and the zero-guarded
rounded ROI. -/
def compose (i : Inputs) (currentYear : ℤ) : Outputs :=
  let mb := mechanismBonus i.mech
  let probability := baseProbabilities i.phase
  let devCostPV := devCosts i.phase * (1 - i.taxRate)
  let ownerPV := pvOwner
    ⟨currentYear, i.launchYear, i.loeYear, i.discountRate, i.taxRate,
      i.peakSales, i.cogs, i.commercialSpend, i.workingCapital, none⟩
  let licensorPV := pvLicensor
    ⟨currentYear, i.launchYear, i.loeYear, i.discountRate, i.taxRate,
      i.peakSales, 0, 0, 0,
      some fun y =>
        royaltyAtYear y i.launchYear i.loeYear i.royaltyMin i.royaltyMax
          i.royaltyRampYears⟩
  let selectedPV := match i.role with
    | Role.OWNER => ownerPV
    | Role.LICENSOR => licensorPV
  let ptrs := probability * mb
  let rnpv := selectedPV * ptrs - devCostPV
  let roi : ℤ := if devCostPV ≠ 0 then round ((rnpv / devCostPV) * 100) else 0
  ⟨mb, ptrs, devCostPV, ownerPV, licensorPV, rnpv, roi⟩

/-- An Orange Book record (src/unnamed/part_002, OrangeBookRecord). The two
expiry fields hold the result of the external date parse
(new Date(d).getUTCFullYear()): some y for a present date parsing to
calendar year y, none when the field is absent, empty, or parses to NaN. -/
structure OrangeBookRecord where
  applicationNumber : Option String
  productName : Option String
  patentExpiry : Option ℤ
  exclusivityExpiry : Option ℤ

/-- One step of the fold in computeLoeYearFromOrangeBook: for each of the
two expiry fields, replace the accumulator when the parsed year exceeds it. -/
def loeStep (m : ℤ) (r : OrangeBookRecord) : ℤ :=
  let m1 := match r.patentExpiry with
    | some y => if y > m then y else m
    | none => m
  match r.exclusivityExpiry with
  | some y => if y > m1 then y else m1
  | none => m1

/-- LOE-year resolution (src/unnamed/part_002, computeLoeYearFromOrangeBook):
null for an empty record set; otherwise fold the parsed years starting from
0, and turn a final 0 into null (the JS max || null). -/
def computeLoeYearFromOrangeBook (records : List OrangeBookRecord) : Option ℤ :=
  if records.isEmpty then none
  else
    let m := records.foldl loeStep 0
    if m = 0 then none else some m

/-- The parsed years present in a record set, in record order:
patentExpiry then exclusivityExpiry of each record when present. -/
def presentYears (records : List OrangeBookRecord) : List ℤ :=
  records.flatMap fun r => r.patentExpiry.toList ++ r.exclusivityExpiry.toList

/-- Modelled from the spec: sales at a year as §4.4 words it — a linear
ramp from 0 at launch to peakSales over the fixed 4-year ramp
(peak × offset/4 while offset ≤ 4), holding at peak thereafter, and 0 for
any year outside [launchYear, loeYear). -/
def salesAtYearSpec (year launch loe : ℤ) (peak : ℚ) : ℚ :=
  if launch ≤ year ∧ year < loe then
    if year - launch ≤ 4 then peak * ((year - launch : ℤ) : ℚ) / 4 else peak
  else 0

/-- The mechanistic inputs of Scenario A: potency 50 nM, selectivity 10-fold,
half-life 12 hr, molecular weight 400 Da, logP 2.0, bioavailability 0.5,
target validation 0.5, target novelty 0.5. -/
def mechScenarioA : MechProps := ⟨50, 10, 12, 400, 2, 0.5, 0.5, 0.5⟩

/-- A mechanistic input on which every rule fires its most negative branch:
the pre-clamp score is 0.35 and the clamp raises it to 0.5. -/
def mechAllNegative : MechProps := ⟨200, 1, 1, 600, 0, 0.1, 0.1, 0.9⟩

/-- A full Scenario A input: phase Preclinical with the Scenario A
mechanistic properties. -/
def inputScenarioA : Inputs :=
  ⟨"Preclinical", "Oncology", Role.OWNER, 500, 2030, 2040, 0, 0.21,
    0.2, 0.3, 0.05, 5, 12, 3, mechScenarioA⟩

/-- An input whose three cost fractions sum to 1.5, giving a negative net
operating margin: the engine accepts it and increasing peak sales then
lowers the owner PV. -/
def inputNegativeMargin : Inputs :=
  ⟨"Approved", "Other", Role.OWNER, 0, 0, 2, 0, 0, 0.5, 0.5, 0.5,
    5, 12, 3, mechScenarioA⟩

/-- A well-posed commercial input (fractions summing below one, positive
discount factor, non-negative royalty bounds) for monotonicity witnesses. -/
def inputWellPosed : Inputs :=
  ⟨"Phase II", "Oncology", Role.LICENSOR, 500, 2030, 2040, 0.1, 0.21,
    0.2, 0.3, 0.05, 5, 12, 3, mechScenarioA⟩

end Drugval

namespace Drugval

section MechanismLemmas

theorem potencyDelta_bounds (x : ℚ) :
    -0.10 ≤ potencyDelta x ∧ potencyDelta x ≤ 0.10 := by
  unfold potencyDelta; split_ifs <;> norm_num

theorem selectivityDelta_bounds (x : ℚ) :
    -0.10 ≤ selectivityDelta x ∧ selectivityDelta x ≤ 0.10 := by
  unfold selectivityDelta; split_ifs <;> norm_num

theorem halfLifeDelta_bounds (x : ℚ) :
    -0.05 ≤ halfLifeDelta x ∧ halfLifeDelta x ≤ 0 := by
  unfold halfLifeDelta; split_ifs <;> norm_num

theorem molecularWeightDelta_bounds (x : ℚ) :
    -0.05 ≤ molecularWeightDelta x ∧ molecularWeightDelta x ≤ 0.05 := by
  unfold molecularWeightDelta; split_ifs <;> norm_num

theorem logPDelta_bounds (x : ℚ) :
    -0.05 ≤ logPDelta x ∧ logPDelta x ≤ 0.10 := by
  unfold logPDelta; split_ifs <;> norm_num

theorem bioavailabilityDelta_bounds (x : ℚ) :
    -0.10 ≤ bioavailabilityDelta x ∧ bioavailabilityDelta x ≤ 0.10 := by
  unfold bioavailabilityDelta; split_ifs <;> norm_num

theorem targetValidationDelta_bounds (x : ℚ) :
    -0.10 ≤ targetValidationDelta x ∧ targetValidationDelta x ≤ 0.20 := by
  unfold targetValidationDelta; split_ifs <;> norm_num

theorem targetNoveltyDelta_bounds (x : ℚ) :
    -0.10 ≤ targetNoveltyDelta x ∧ targetNoveltyDelta x ≤ 0.10 := by
  unfold targetNoveltyDelta; split_ifs <;> norm_num

theorem mechanismBonusRaw_bounds (p : MechProps) :
    0.35 ≤ mechanismBonusRaw p ∧ mechanismBonusRaw p ≤ 1.75 := by
  obtain ⟨h1a, h1b⟩ := potencyDelta_bounds p.potency
  obtain ⟨h2a, h2b⟩ := selectivityDelta_bounds p.selectivity
  obtain ⟨h3a, h3b⟩ := halfLifeDelta_bounds p.halfLife
  obtain ⟨h4a, h4b⟩ := molecularWeightDelta_bounds p.molecularWeight
  obtain ⟨h5a, h5b⟩ := logPDelta_bounds p.logP
  obtain ⟨h6a, h6b⟩ := bioavailabilityDelta_bounds p.bioavailability
  obtain ⟨h7a, h7b⟩ := targetValidationDelta_bounds p.targetValidation
  obtain ⟨h8a, h8b⟩ := targetNoveltyDelta_bounds p.targetNovelty
  unfold mechanismBonusRaw
  constructor <;> linarith

theorem mechanismBonus_le_raw_bound (p : MechProps) :
    0.5 ≤ mechanismBonus p ∧ mechanismBonus p ≤ 1.75 := by
  obtain ⟨hlo, hhi⟩ := mechanismBonusRaw_bounds p
  unfold mechanismBonus
  constructor
  · exact le_min (by norm_num) (le_max_left _ _)
  · exact le_trans (min_le_right _ _) (max_le (by norm_num) hhi)

theorem mechanismBonus_eval_scenarioA : mechanismBonus mechScenarioA = 1.1 := by
  norm_num [mechScenarioA, mechanismBonus, mechanismBonusRaw, potencyDelta,
    selectivityDelta, halfLifeDelta, molecularWeightDelta, logPDelta,
    bioavailabilityDelta, targetValidationDelta, targetNoveltyDelta]

theorem mechanismBonus_eval_allNegative : mechanismBonus mechAllNegative = 0.5 := by
  norm_num [mechAllNegative, mechanismBonus, mechanismBonusRaw, potencyDelta,
    selectivityDelta, halfLifeDelta, molecularWeightDelta, logPDelta,
    bioavailabilityDelta, targetValidationDelta, targetNoveltyDelta]

theorem compose_ptrs (i : Inputs) (cy : ℤ) :
    (compose i cy).ptrs = baseProbabilities i.phase * mechanismBonus i.mech := rfl

theorem compose_ownerPV (i : Inputs) (cy : ℤ) :
    (compose i cy).ownerPV =
      pvOwner ⟨cy, i.launchYear, i.loeYear, i.discountRate, i.taxRate,
        i.peakSales, i.cogs, i.commercialSpend, i.workingCapital, none⟩ := rfl

theorem compose_licensorPV (i : Inputs) (cy : ℤ) :
    (compose i cy).licensorPV =
      pvLicensor ⟨cy, i.launchYear, i.loeYear, i.discountRate, i.taxRate,
        i.peakSales, 0, 0, 0,
        some fun y =>
          royaltyAtYear y i.launchYear i.loeYear i.royaltyMin i.royaltyMax
            i.royaltyRampYears⟩ := rfl

theorem compose_devCostPV (i : Inputs) (cy : ℤ) :
    (compose i cy).devCostPV = devCosts i.phase * (1 - i.taxRate) := rfl

end MechanismLemmas

/-- C1 counterexample: on the Scenario A inputs the code does not return
mechanism bonus 1.0 with ptrs 0.12 — the logP = 2.0 rule adds 0.10, so the
bonus is 1.1 and ptrs is 0.132. -/
theorem scenarioA_counterexample :
    ¬ (mechanismBonus mechScenarioA = 1 ∧
        (compose inputScenarioA 2025).ptrs = 0.12) := by
  intro h
  have hb := h.1
  rw [mechanismBonus_eval_scenarioA] at hb
  norm_num at hb

/-- C1 amended: on the Scenario A inputs (phase Preclinical, baseline
probability 0.12) the mechanism bonus is 1.1 — logP 2.0 lies inside [1, 3]
and contributes +0.10 — and ptrs = 0.12 × 1.1 = 0.132. -/
theorem scenarioA_amended :
    mechanismBonus mechScenarioA = 1.1 ∧
    (compose inputScenarioA 2025).ptrs = 0.132 := by
  refine ⟨mechanismBonus_eval_scenarioA, ?_⟩
  rw [compose_ptrs]
  show baseProbabilities "Preclinical" * mechanismBonus mechScenarioA = 0.132
  rw [mechanismBonus_eval_scenarioA]
  norm_num [baseProbabilities]

/-- C4: for every combination of the eight mechanistic inputs the mechanism
bonus is clamped into [0.5, 2.0], and for every input whose baseline
probability is non-negative, ptrs = baselineProbability × mechanismBonus
lies in [0, baselineProbability × 2.0]. -/
theorem clampProperty :
    (∀ p : MechProps, 0.5 ≤ mechanismBonus p ∧ mechanismBonus p ≤ 2) ∧
    ∀ (i : Inputs) (cy : ℤ), 0 ≤ baseProbabilities i.phase →
      0 ≤ (compose i cy).ptrs ∧
        (compose i cy).ptrs ≤ baseProbabilities i.phase * 2 := by
  have hb : ∀ p : MechProps, 0.5 ≤ mechanismBonus p ∧ mechanismBonus p ≤ 2 := by
    intro p
    obtain ⟨hlo, hhi⟩ := mechanismBonus_le_raw_bound p
    exact ⟨hlo, by linarith⟩
  refine ⟨hb, ?_⟩
  intro i cy hprob
  obtain ⟨hlo, hhi⟩ := hb i.mech
  rw [compose_ptrs]
  constructor
  · exact mul_nonneg hprob (by linarith)
  · exact mul_le_mul_of_nonneg_left hhi hprob

/-- C4 witness: the clamp property instantiated on the Scenario A input,
whose Preclinical baseline probability 0.12 is non-negative. -/
theorem clampProperty_witness :
    0 ≤ (compose inputScenarioA 2025).ptrs ∧
      (compose inputScenarioA 2025).ptrs ≤
        baseProbabilities inputScenarioA.phase * 2 :=
  clampProperty.2 inputScenarioA 2025 (by norm_num [inputScenarioA, baseProbabilities])

/-- C9: the pre-clamp mechanism score always lies in [0.35, 1.75] (the
half-life rule can only subtract), so the clamped bonus lies in [0.5, 1.75]
and in particular never reaches the upper clamp bound 2.0, while the lower
clamp bound 0.5 is attained (for example by the all-negative input). -/
theorem mechanismBonusTightBounds :
    (∀ p : MechProps,
        0.35 ≤ mechanismBonusRaw p ∧ mechanismBonusRaw p ≤ 1.75 ∧
        0.5 ≤ mechanismBonus p ∧ mechanismBonus p ≤ 1.75 ∧
        mechanismBonus p ≠ 2) ∧
    ∃ p : MechProps, mechanismBonus p = 0.5 := by
  constructor
  · intro p
    obtain ⟨hra, hrb⟩ := mechanismBonusRaw_bounds p
    obtain ⟨hba, hbb⟩ := mechanismBonus_le_raw_bound p
    refine ⟨hra, hrb, hba, hbb, ?_⟩
    intro h
    rw [h] at hbb
    norm_num at hbb
  · exact ⟨mechAllNegative, mechanismBonus_eval_allNegative⟩

/-- C9 witness: the tight bounds instantiated on the Scenario A input. -/
theorem mechanismBonusTightBounds_witness :
    0.5 ≤ mechanismBonus mechScenarioA ∧ mechanismBonus mechScenarioA ≤ 1.75 :=
  ⟨(mechanismBonusTightBounds.1 mechScenarioA).2.2.1,
    (mechanismBonusTightBounds.1 mechScenarioA).2.2.2.1⟩

/-- C2 counterexample: with launchYear 2030, loeYear 2031, min 5, max 12 and
rampYears 3, the year launchYear + rampYears = 2033 lies at or past the LOE
year, so royaltyAtYear returns 0 there, not max — the claim fails as a
universal statement over all launch/loe/ramp combinations. -/
theorem royaltyRampBoundary_counterexample :
    ¬ royaltyAtYear (2030 + 3) 2030 2031 5 12 ((3 : ℤ) : ℚ) = 12 := by
  norm_num [royaltyAtYear]

/-- C2 amended: for a non-negative integer rampYears, and provided the ramp
completes before the LOE year (launchYear + rampYears < loeYear), royaltyAtYear
returns max at launchYear + rampYears, and more generally at every integer
year y with launchYear + rampYears ≤ y < loeYear. -/
theorem royaltyRampBoundary_amended (launch loe : ℤ) (rmin rmax : ℚ) (r : ℤ)
    (hr : 0 ≤ r) (hlt : launch + r < loe) :
    royaltyAtYear (launch + r) launch loe rmin rmax ((r : ℤ) : ℚ) = rmax ∧
    ∀ y : ℤ, launch + r ≤ y → y < loe →
      royaltyAtYear y launch loe rmin rmax ((r : ℤ) : ℚ) = rmax := by
  have key : ∀ y : ℤ, launch + r ≤ y → y < loe →
      royaltyAtYear y launch loe rmin rmax ((r : ℤ) : ℚ) = rmax := by
    intro y h1 h2
    unfold royaltyAtYear
    rw [if_neg (by omega), if_pos (by exact_mod_cast (by omega : r ≤ y - launch))]
  exact ⟨key (launch + r) le_rfl hlt, key⟩

/-- C2 witness: the amended boundary property at launch 2030, LOE 2040,
min 5, max 12, ramp 3, checked at the boundary year 2033 and at 2035. -/
theorem royaltyRampBoundary_witness :
    royaltyAtYear (2030 + 3) 2030 2040 5 12 ((3 : ℤ) : ℚ) = 12 ∧
    royaltyAtYear 2035 2030 2040 5 12 ((3 : ℤ) : ℚ) = 12 :=
  ⟨(royaltyRampBoundary_amended 2030 2040 5 12 3 (by norm_num) (by norm_num)).1,
    (royaltyRampBoundary_amended 2030 2040 5 12 3 (by norm_num) (by norm_num)).2
      2035 (by norm_num) (by norm_num)⟩

/-- C10: when rampYears ≤ 0 the royalty curve returns max at every year in
[launchYear, loeYear) and 0 at every year outside it; the interpolation
branch that divides by rampYears is never taken, so no division by zero
arises. -/
theorem royaltyZeroRamp (y launch loe : ℤ) (rmin rmax ramp : ℚ)
    (hramp : ramp ≤ 0) :
    (launch ≤ y → y < loe → royaltyAtYear y launch loe rmin rmax ramp = rmax) ∧
    (y < launch ∨ loe ≤ y → royaltyAtYear y launch loe rmin rmax ramp = 0) := by
  constructor
  · intro h1 h2
    unfold royaltyAtYear
    rw [if_neg (by omega)]
    rw [if_pos]
    calc ramp ≤ 0 := hramp
      _ ≤ ((y - launch : ℤ) : ℚ) := by exact_mod_cast (by omega : (0 : ℤ) ≤ y - launch)
  · intro h
    unfold royaltyAtYear
    rw [if_pos (by omega)]

/-- C10 witness: zero ramp at launch 2030, LOE 2040: the launch year itself
already pays max, and the year after LOE pays 0. -/
theorem royaltyZeroRamp_witness :
    royaltyAtYear 2030 2030 2040 5 12 0 = 12 ∧
    royaltyAtYear 2041 2030 2040 5 12 0 = 0 :=
  ⟨(royaltyZeroRamp 2030 2030 2040 5 12 0 (by norm_num)).1
      (by norm_num) (by norm_num),
    (royaltyZeroRamp 2041 2030 2040 5 12 0 (by norm_num)).2
      (Or.inr (by norm_num))⟩

/-- The source salesAtYear agrees with the spec-worded sales curve at every
year. -/
theorem salesAtYear_eq_spec (y l loe : ℤ) (p : ℚ) :
    salesAtYear y l loe p = salesAtYearSpec y l loe p := by
  unfold salesAtYear salesAtYearSpec
  split_ifs with h1 h2 h3 <;>
    first
      | (exfalso; omega)
      | rfl
      | rw [mul_div_assoc]

/-- C5: the composed owner PV is the sum, over integer years in
[launchYear, loeYear), of the spec's ramped sales times the net margin and
the after-tax factor, discounted by (1 + discountRate)^(y − currentYear);
and the sales curve is 0 at any year outside [launchYear, loeYear). -/
theorem ownerPVSpecification (i : Inputs) (cy : ℤ) :
    (compose i cy).ownerPV =
      (∑ y in Finset.Ico i.launchYear i.loeYear,
        salesAtYearSpec y i.launchYear i.loeYear i.peakSales
          * (1 - i.cogs - i.commercialSpend - i.workingCapital) * (1 - i.taxRate)
          / (1 + i.discountRate) ^ (y - cy)) ∧
    ∀ (y : ℤ) (p : ℚ), y < i.launchYear ∨ i.loeYear ≤ y →
      salesAtYear y i.launchYear i.loeYear p = 0 := by
  constructor
  · rw [compose_ownerPV]
    unfold pvOwner
    exact Finset.sum_congr rfl fun y _ => by rw [salesAtYear_eq_spec]
  · intro y p h
    unfold salesAtYear
    rw [if_pos (by omega)]

/-- C5 witness: the owner-PV characterisation instantiated on the
negative-margin input, and the sales curve vanishing one year past LOE. -/
theorem ownerPVSpecification_witness :
    (compose inputNegativeMargin 0).ownerPV =
      (∑ y in Finset.Ico inputNegativeMargin.launchYear inputNegativeMargin.loeYear,
        salesAtYearSpec y inputNegativeMargin.launchYear
            inputNegativeMargin.loeYear inputNegativeMargin.peakSales
          * (1 - inputNegativeMargin.cogs - inputNegativeMargin.commercialSpend
              - inputNegativeMargin.workingCapital)
          * (1 - inputNegativeMargin.taxRate)
          / (1 + inputNegativeMargin.discountRate) ^ (y - 0)) ∧
    salesAtYear 9 inputNegativeMargin.launchYear inputNegativeMargin.loeYear 7 = 0 :=
  ⟨(ownerPVSpecification inputNegativeMargin 0).1,
    (ownerPVSpecification inputNegativeMargin 0).2 9 7
      (Or.inr (by norm_num [inputNegativeMargin]))⟩

/-- C6: the composed licensor PV is the sum over [launchYear, loeYear) of
sales times royaltyAtYear/100 times the after-tax factor, discounted; the
cost fractions have no effect on pvLicensor; pvLicensor is 0 when no royalty
callback is supplied; and an empty horizon (loeYear ≤ launchYear) gives
ownerPV = licensorPV = 0. -/
theorem licensorPVSpecification :
    (∀ (i : Inputs) (cy : ℤ),
      (compose i cy).licensorPV =
        ∑ y in Finset.Ico i.launchYear i.loeYear,
          salesAtYear y i.launchYear i.loeYear i.peakSales
            * (royaltyAtYear y i.launchYear i.loeYear i.royaltyMin i.royaltyMax
                i.royaltyRampYears / 100)
            * (1 - i.taxRate) / (1 + i.discountRate) ^ (y - cy)) ∧
    (∀ (d : DcfInputs) (c s w : ℚ),
      pvLicensor { d with cogs := c, commercialSpend := s, workingCapital := w }
        = pvLicensor d) ∧
    (∀ d : DcfInputs, d.royaltyPctAt = none → pvLicensor d = 0) ∧
    ∀ (i : Inputs) (cy : ℤ), i.loeYear ≤ i.launchYear →
      (compose i cy).ownerPV = 0 ∧ (compose i cy).licensorPV = 0 := by
  refine ⟨fun i cy => rfl, ?_, ?_, ?_⟩
  · intro d c s w
    obtain ⟨y0, l0, e0, r0, t0, p0, c0, s0, w0, roy0⟩ := d
    rfl
  · intro d h
    unfold pvLicensor
    rw [h]
  · intro i cy h
    have hempty : Finset.Ico i.launchYear i.loeYear = ∅ :=
      Finset.Ico_eq_empty (not_lt.mpr h)
    constructor
    · rw [compose_ownerPV]
      simp [pvOwner, hempty]
    · rw [compose_licensorPV]
      simp [pvLicensor, hempty]

/-- C6 witness: the zero-horizon part instantiated on the well-posed input
with launch and LOE swapped (LOE 2030 ≤ launch 2040), and the
no-royalty-callback part on its owner-side DCF record. -/
theorem licensorPVSpecification_witness :
    ((compose { inputWellPosed with launchYear := 2040, loeYear := 2030 } 2025).ownerPV = 0 ∧
      (compose { inputWellPosed with launchYear := 2040, loeYear := 2030 } 2025).licensorPV = 0) ∧
    pvLicensor ⟨2025, 2030, 2040, 0.1, 0.21, 500, 0.2, 0.3, 0.05, none⟩ = 0 :=
  ⟨licensorPVSpecification.2.2.2
      { inputWellPosed with launchYear := 2040, loeYear := 2030 } 2025
      (by norm_num),
    licensorPVSpecification.2.2.1 ⟨2025, 2030, 2040, 0.1, 0.21, 500, 0.2, 0.3, 0.05, none⟩ rfl⟩

/-- C7: rnpv is the role-selected PV times ptrs minus devCostPV, and roi is
zero-guarded: 0 when devCostPV = 0, otherwise the rounded percentage
rnpv / devCostPV × 100 — the division is never performed on a zero
denominator. -/
theorem rnpvRoiComposition (i : Inputs) (cy : ℤ) :
    (compose i cy).rnpv =
      (match i.role with
        | Role.OWNER => (compose i cy).ownerPV
        | Role.LICENSOR => (compose i cy).licensorPV) * (compose i cy).ptrs
        - (compose i cy).devCostPV ∧
    ((compose i cy).devCostPV = 0 → (compose i cy).roi = 0) ∧
    ((compose i cy).devCostPV ≠ 0 →
      (compose i cy).roi = round ((compose i cy).rnpv / (compose i cy).devCostPV * 100)) := by
  have hroi : (compose i cy).roi =
      if (compose i cy).devCostPV ≠ 0 then
        round ((compose i cy).rnpv / (compose i cy).devCostPV * 100)
      else 0 := rfl
  refine ⟨?_, ?_, ?_⟩
  · cases hr : i.role <;> simp [compose, hr]
  · intro h
    rw [hroi, if_neg (by simpa using h)]
  · intro h
    rw [hroi, if_pos h]

/-- C7 witness: rnpv and the roi guard at the Scenario A input (whose
Preclinical dev cost is 200 × (1 − 0.21) = 158 ≠ 0) and the zero-cost guard
on the Approved-phase negative-margin input (dev cost 0). -/
theorem rnpvRoiComposition_witness :
    (compose inputScenarioA 2025).rnpv =
      (compose inputScenarioA 2025).ownerPV * (compose inputScenarioA 2025).ptrs
        - (compose inputScenarioA 2025).devCostPV ∧
    (compose inputNegativeMargin 0).roi = 0 :=
  ⟨(rnpvRoiComposition inputScenarioA 2025).1,
    (rnpvRoiComposition inputNegativeMargin 0).2.1
      (by rw [compose_devCostPV]; simp [inputNegativeMargin, devCosts])⟩

section MonotonicityLemmas

theorem salesAtYear_mono (y l loe : ℤ) (p q : ℚ) (hpq : p ≤ q) :
    salesAtYear y l loe p ≤ salesAtYear y l loe q := by
  unfold salesAtYear
  split_ifs with h1 h2
  · exact le_rfl
  · have hz : (0:ℤ) ≤ y - l := by omega
    have ht : (0:ℚ) ≤ ((y - l : ℤ) : ℚ) / 4 := by
      have hc : (0:ℚ) ≤ ((y - l : ℤ) : ℚ) := by exact_mod_cast hz
      linarith
    exact mul_le_mul_of_nonneg_right hpq ht
  · exact hpq

theorem royaltyAtYear_nonneg (y l loe : ℤ) (rmin rmax ramp : ℚ)
    (hmin : 0 ≤ rmin) (hmax : 0 ≤ rmax) :
    0 ≤ royaltyAtYear y l loe rmin rmax ramp := by
  unfold royaltyAtYear
  split_ifs with h1 h2
  · exact le_rfl
  · exact hmax
  · have hz : (0:ℤ) ≤ y - l := by omega
    have htQ : (0:ℚ) ≤ ((y - l : ℤ) : ℚ) := by exact_mod_cast hz
    have hlt : ((y - l : ℤ) : ℚ) < ramp := not_le.mp h2
    have hr0 : (0:ℚ) < ramp := lt_of_le_of_lt htQ hlt
    have key : rmin + (rmax - rmin) * ((y - l : ℤ) : ℚ) / ramp
        = (rmin * (ramp - ((y - l : ℤ) : ℚ)) + rmax * ((y - l : ℤ) : ℚ)) / ramp := by
      field_simp
      ring
    rw [key]
    apply div_nonneg _ hr0.le
    have hrem : (0:ℚ) ≤ ramp - ((y - l : ℤ) : ℚ) := by linarith
    nlinarith [mul_nonneg hmin hrem, mul_nonneg hmax htQ]

theorem pvOwner_mono (d : DcfInputs) (p q : ℚ)
    (hfrac : d.cogs + d.commercialSpend + d.workingCapital ≤ 1)
    (htax : d.taxRate ≤ 1) (hr : -1 < d.discountRate) (hpq : p ≤ q) :
    pvOwner { d with peakSales := p } ≤ pvOwner { d with peakSales := q } := by
  obtain ⟨cy, l, e, r, t, ps, c, s, w, roy0⟩ := d
  simp only at hfrac htax hr
  unfold pvOwner
  apply Finset.sum_le_sum
  intro y hy
  have hD : (0:ℚ) < (1 + r) ^ (y - cy) := zpow_pos (by linarith) _
  have hs := salesAtYear_mono y l e p q hpq
  have hnet : (0:ℚ) ≤ 1 - c - s - w := by linarith
  have ht2 : (0:ℚ) ≤ 1 - t := by linarith
  have key : ∀ a : ℚ, a * (1 - c - s - w) * (1 - t) / (1 + r) ^ (y - cy)
      = a * ((1 - c - s - w) * (1 - t) / (1 + r) ^ (y - cy)) := by
    intro a; ring
  rw [key, key]
  exact mul_le_mul_of_nonneg_right hs
    (div_nonneg (mul_nonneg hnet ht2) hD.le)

theorem pvLicensor_mono (d : DcfInputs) (p q : ℚ) (roy : ℤ → ℚ)
    (hroy : d.royaltyPctAt = some roy) (hroyNN : ∀ y, 0 ≤ roy y)
    (htax : d.taxRate ≤ 1) (hr : -1 < d.discountRate) (hpq : p ≤ q) :
    pvLicensor { d with peakSales := p } ≤ pvLicensor { d with peakSales := q } := by
  obtain ⟨cy, l, e, r, t, ps, c, s, w, roy0⟩ := d
  simp only at hroy htax hr
  subst hroy
  unfold pvLicensor
  dsimp only
  apply Finset.sum_le_sum
  intro y hy
  have hD : (0:ℚ) < (1 + r) ^ (y - cy) := zpow_pos (by linarith) _
  have hs := salesAtYear_mono y l e p q hpq
  have key : ∀ a : ℚ, a * (roy y / 100) * (1 - t) / (1 + r) ^ (y - cy)
      = a * ((roy y / 100) * (1 - t) / (1 + r) ^ (y - cy)) := by
    intro a; ring
  rw [key, key]
  refine mul_le_mul_of_nonneg_right hs (div_nonneg ?_ hD.le)
  exact mul_nonneg (div_nonneg (hroyNN y) (by norm_num)) (by linarith)

end MonotonicityLemmas

/-- C3 counterexample: the engine accepts cost fractions summing to 1.5
(net margin −0.5), and then raising peak sales from 0 to 8 lowers the owner
PV from 0 to −1 — monotonicity in peakSales fails without a margin
hypothesis. -/
theorem peakSalesMono_counterexample :
    (compose { inputNegativeMargin with peakSales := 8 } 0).ownerPV
      < (compose inputNegativeMargin 0).ownerPV := by
  have h : Finset.Ico (0:ℤ) 2 = {0, 1} := by decide
  norm_num [inputNegativeMargin, compose, pvOwner, salesAtYear, h,
    Finset.sum_insert, Finset.sum_singleton]

/-- C3 amended: increasing peakSales (all else fixed) never decreases
ownerPV or licensorPV, provided the cost fractions sum to at most 1, the
tax rate is at most 1, the discount rate exceeds −1, and the royalty bounds
are non-negative. -/
theorem peakSalesMono_amended (i : Inputs) (cy : ℤ) (p q : ℚ)
    (hfrac : i.cogs + i.commercialSpend + i.workingCapital ≤ 1)
    (htax : i.taxRate ≤ 1) (hr : -1 < i.discountRate)
    (hmin : 0 ≤ i.royaltyMin) (hmax : 0 ≤ i.royaltyMax) (hpq : p ≤ q) :
    (compose { i with peakSales := p } cy).ownerPV
        ≤ (compose { i with peakSales := q } cy).ownerPV ∧
    (compose { i with peakSales := p } cy).licensorPV
        ≤ (compose { i with peakSales := q } cy).licensorPV := by
  constructor
  · rw [compose_ownerPV, compose_ownerPV]
    exact pvOwner_mono
      ⟨cy, i.launchYear, i.loeYear, i.discountRate, i.taxRate, i.peakSales,
        i.cogs, i.commercialSpend, i.workingCapital, none⟩
      p q hfrac htax hr hpq
  · rw [compose_licensorPV, compose_licensorPV]
    exact pvLicensor_mono
      ⟨cy, i.launchYear, i.loeYear, i.discountRate, i.taxRate, i.peakSales,
        0, 0, 0,
        some fun y =>
          royaltyAtYear y i.launchYear i.loeYear i.royaltyMin i.royaltyMax
            i.royaltyRampYears⟩
      p q _ rfl
      (fun y => royaltyAtYear_nonneg y i.launchYear i.loeYear i.royaltyMin
        i.royaltyMax i.royaltyRampYears hmin hmax)
      htax hr hpq

/-- C3 witness: monotonicity instantiated on the well-posed input, raising
peak sales from 100 to 200. -/
theorem peakSalesMono_witness :
    (compose { inputWellPosed with peakSales := 100 } 2025).ownerPV
        ≤ (compose { inputWellPosed with peakSales := 200 } 2025).ownerPV ∧
    (compose { inputWellPosed with peakSales := 100 } 2025).licensorPV
        ≤ (compose { inputWellPosed with peakSales := 200 } 2025).licensorPV :=
  peakSalesMono_amended inputWellPosed 2025 100 200
    (by norm_num [inputWellPosed]) (by norm_num [inputWellPosed])
    (by norm_num [inputWellPosed]) (by norm_num [inputWellPosed])
    (by norm_num [inputWellPosed]) (by norm_num)

section LoeLemmas

theorem loeStep_eq_foldl (m : ℤ) (r : OrangeBookRecord) :
    loeStep m r = (r.patentExpiry.toList ++ r.exclusivityExpiry.toList).foldl max m := by
  obtain ⟨a, n, pat, excl⟩ := r
  cases pat <;> cases excl <;>
    simp [loeStep, List.foldl, max_def] <;> split_ifs <;> omega

theorem foldl_loeStep_eq (records : List OrangeBookRecord) (m : ℤ) :
    records.foldl loeStep m = (presentYears records).foldl max m := by
  induction records generalizing m with
  | nil => simp [presentYears]
  | cons r rs ih =>
      have hp : presentYears (r :: rs)
          = (r.patentExpiry.toList ++ r.exclusivityExpiry.toList)
              ++ presentYears rs := by
        simp [presentYears]
      rw [List.foldl_cons, ih, loeStep_eq_foldl, hp]
      simp [List.foldl_append]

theorem foldl_max_le (ys : List ℤ) (a : ℤ) :
    a ≤ ys.foldl max a ∧ ∀ y ∈ ys, y ≤ ys.foldl max a := by
  induction ys generalizing a with
  | nil => simp
  | cons z zs ih =>
      obtain ⟨h1, h2⟩ := ih (max a z)
      rw [List.foldl_cons]
      refine ⟨le_trans (le_max_left a z) h1, ?_⟩
      intro y hy
      rcases List.mem_cons.mp hy with h | h
      · subst h
        exact le_trans (le_max_right a y) h1
      · exact h2 y h

theorem foldl_max_cases (ys : List ℤ) (a : ℤ) :
    ys.foldl max a = a ∨ ys.foldl max a ∈ ys := by
  induction ys generalizing a with
  | nil => simp
  | cons z zs ih =>
      rw [List.foldl_cons]
      rcases ih (max a z) with h | h
      · rw [h]
        rcases max_cases a z with ⟨h1, _⟩ | ⟨h1, _⟩
        · exact Or.inl h1
        · exact Or.inr (by rw [h1]; exact List.mem_cons_self z zs)
      · exact Or.inr (List.mem_cons_of_mem z h)

theorem computeLoe_eq (records : List OrangeBookRecord)
    (h : ¬ records.isEmpty = true) :
    computeLoeYearFromOrangeBook records =
      if (presentYears records).foldl max 0 = 0 then none
      else some ((presentYears records).foldl max 0) := by
  unfold computeLoeYearFromOrangeBook
  rw [if_neg h]
  simp only [foldl_loeStep_eq]

end LoeLemmas

/-- C8 counterexample: a single record whose patent expiry parses to the
valid calendar year 0 (for example the ISO date 0000-06-15). The claim
requires the maximum parsed year, 0; the code folds from 0 and then maps a
final 0 to null, so it returns none. -/
theorem loeResolution_counterexample :
    computeLoeYearFromOrangeBook [⟨none, none, some 0, none⟩] ≠ some 0 ∧
    computeLoeYearFromOrangeBook [⟨none, none, some 0, none⟩] = none ∧
    (0 : ℤ) ∈ presentYears [⟨none, none, some 0, none⟩] := by
  refine ⟨by decide, by decide, ?_⟩
  simp [presentYears]

/-- C8 amended: when at least one present date parses to a positive year,
computeLoeYearFromOrangeBook returns the maximum parsed year of the record
set; it returns null when the set is empty or when no present date parses
to a positive year. -/
theorem loeResolution_amended (records : List OrangeBookRecord) :
    ((∃ y ∈ presentYears records, 0 < y) →
      ∃ m, computeLoeYearFromOrangeBook records = some m ∧
        m ∈ presentYears records ∧ ∀ z ∈ presentYears records, z ≤ m) ∧
    ((¬ ∃ y ∈ presentYears records, 0 < y) →
      computeLoeYearFromOrangeBook records = none) := by
  by_cases hemp : records.isEmpty = true
  · have hnil : records = [] := List.isEmpty_iff.mp hemp
    subst hnil
    constructor
    · rintro ⟨y, hy, _⟩
      simp [presentYears] at hy
    · intro
      rfl
  · obtain ⟨hA, hB⟩ := foldl_max_le (presentYears records) 0
    rw [computeLoe_eq records hemp]
    constructor
    · rintro ⟨y, hy, hy0⟩
      have hMpos : 0 < (presentYears records).foldl max 0 :=
        lt_of_lt_of_le hy0 (hB y hy)
      have hMne : (presentYears records).foldl max 0 ≠ 0 := ne_of_gt hMpos
      refine ⟨(presentYears records).foldl max 0, if_neg hMne, ?_, hB⟩
      rcases foldl_max_cases (presentYears records) 0 with h | h
      · exact absurd h hMne
      · exact h
    · intro hno
      push_neg at hno
      have hM0 : (presentYears records).foldl max 0 = 0 := by
        rcases foldl_max_cases (presentYears records) 0 with h | h
        · exact h
        · have hle := hno _ h
          omega
      rw [hM0]
      rfl

/-- C8 witness: the amended claim on two records with parsed years
2030, 2035 and 2033: the result is the maximum present year. -/
theorem loeResolution_witness :
    ∃ m, computeLoeYearFromOrangeBook
        [⟨none, none, some 2030, some 2035⟩, ⟨none, none, none, some 2033⟩]
        = some m ∧
      m ∈ presentYears
        [⟨none, none, some 2030, some 2035⟩, ⟨none, none, none, some 2033⟩] ∧
      ∀ z ∈ presentYears
        [⟨none, none, some 2030, some 2035⟩, ⟨none, none, none, some 2033⟩],
        z ≤ m :=
  (loeResolution_amended
    [⟨none, none, some 2030, some 2035⟩, ⟨none, none, none, some 2033⟩]).1
    ⟨2035, by simp [presentYears], by norm_num⟩

end Drugval
